import Mathlib

/-!
Verification of the per-connection state machine of the embedded web server
(`src/webserver/connection.cpp`, namespace http::server, class connection).

The C++ class is shallowly embedded as follows.

* `ConnState` holds the data members of `connection` that the verified
  behaviour depends on: `connection_type`, `keepalive_`, `write_in_progress`,
  `writeQ`, `write_buffer`, `host_endpoint_`, the number of accumulated but
  unconsumed bytes of the streambuf `_buf` (`buf_`), and one piece of
  websocket-handler bookkeeping (`ping_outstanding`, modelled from the spec,
  see below).
* Each asio completion handler / member function becomes a pure function
  `ConnState → ConnState × List Action`: the returned action list records, in
  program order, the externally visible operations the C++ body performs
  (cancelling or arming the timer, starting an async read, handing a buffer to
  `boost::asio::async_write`, shutting the socket down, asking the
  `connection_manager` to stop the connection, closing the socket, and
  dispatching a parsed request to the request handler).
* The external collaborators that are not part of this translation unit
  (the HTTP request parser, the request handler, the websocket frame parser)
  are parameters of `handle_read`: their outcome on the current buffer is
  passed in, exactly at the granularity the C++ code consumes it.
* C++ `std::string` is modelled as `List Char` (`Str`), `boost::tribool` as
  `Tribool`, and the `boost::system::error_code` values the code
  distinguishes (`!error`, `error == operation_aborted`, anything else) as
  `ErrorCode`.
-/

set_option maxHeartbeats 1000000

namespace Webserver

/-- A C++ std::string, modelled as its list of characters. -/
abbrev Str := List Char

/-- The three observationally distinct values of boost::system::error_code in
connection.cpp: no error, operation_aborted, and any other error. -/
inductive ErrorCode where
  | success
  | operationAborted
  | otherError
deriving DecidableEq, Repr

/-- boost::tribool, used as the result type of both protocol parsers. -/
inductive Tribool where
  | ttrue
  | tfalse
  | indeterminate
deriving DecidableEq, Repr

/-- The protocol mode of a connection (member `connection_type`):
`connection_http`, `connection_websocket` (FRAMED_PUSH) or
`connection_closing` (CLOSING). -/
inductive ConnType where
  | connection_http
  | connection_websocket
  | connection_closing
deriving DecidableEq, Repr

/-- The HTTP reply status values that connection.cpp branches on
(from the `reply::status_type` enum). -/
inductive status_type where
  | switching_protocols
  | ok
  | bad_request
deriving DecidableEq, Repr

/-- The fields of the parsed HTTP request that connection.cpp reads before
dispatching it to the request handler: the host attached to it and its
keep-alive flag. -/
structure RequestInfo where
  host : Str
  keep_alive : Bool
deriving DecidableEq, Repr

/-- The handler-produced reply, at the granularity connection.cpp consumes it:
its status (compared against `reply::switching_protocols`) and its
serialization `reply_.to_string(request_.method)`. -/
structure Reply where
  status : status_type
  serialized : Str
deriving DecidableEq, Repr

/-- Outcome of `request_parser_.parse` on the accumulated buffer (the parser
lives outside this translation unit): the tribool result, the number of bytes
the parser consumed, and the value of the request's "Connection" header
(`request_.get_req_header`, `none` when the header is absent). -/
structure HttpParse where
  result : Tribool
  consumed : Nat
  connectionHeader : Option Str
deriving DecidableEq, Repr

/-- Outcome of `websocket_handler.parse` on the accumulated buffer (the
websocket codec lives outside this translation unit): the tribool result, the
bytes consumed, and the value it leaves in the by-reference `keepalive_`
argument. -/
structure WsParse where
  result : Tribool
  consumed : Nat
  keepalive_out : Bool
deriving DecidableEq, Repr

/-- The externally visible operations a handler body performs, in program
order. -/
inductive Action where
  | timerCancel
  | timerArm
  | startRead
  | transportWrite (b : Str)
  | shutdown
  | stopConnection
  | socketClose
  | dispatch (req : RequestInfo)
deriving DecidableEq, Repr

/-- The data members of `connection` that the verified behaviour depends on.
`buf_` is the number of accumulated-but-unconsumed bytes in the streambuf
`_buf`.  `ping_outstanding` is the liveness-probe bookkeeping of the websocket
handler, modelled from the spec (see `SendPing`). -/
structure ConnState where
  connection_type : ConnType
  keepalive_ : Bool
  write_in_progress : Bool
  writeQ : List Str
  write_buffer : Str
  host_endpoint_ : Str
  buf_ : Nat
  ping_outstanding : Bool
deriving DecidableEq, Repr

/-- The IPv4-mapped IPv6 prefix "::ffff:" that connection.cpp strips from the
peer address. -/
def ipv4MappedPrefix : Str := "::ffff:".toList

/-- The header value literal "Keep-Alive" that connection.cpp compares the
request's "Connection" header against (case-insensitively). -/
def keepAliveValue : Str := "Keep-Alive".toList

/-- boost::iequals on std::string: case-insensitive equality. -/
def iequals (a b : Str) : Bool :=
  a.map Char.toLower == b.map Char.toLower

/-- Modelled from the spec: the serialization of the fixed bad-request reply
`reply::stock_reply(reply::bad_request)` synthesized on a parse failure
(reply.cpp is not among the core sources; the exact bytes are irrelevant, only
that one fixed response is produced). -/
def bad_request_serialized : Str := "HTTP/1.1 400 Bad Request".toList

/-- Modelled from the spec: the liveness-probe frame built by the websocket
codec (`build_liveness_probe`); the codec is not among the core sources and
the exact frame bytes are irrelevant here. -/
def pingFrame : Str := "websocket-ping-frame".toList

/-- Modelled from the spec: the close-notification frame built by the
websocket codec (`build_close_frame`); the codec is not among the core
sources and the exact frame bytes are irrelevant here. -/
def closeFrame : Str := "websocket-close-frame".toList

/-- connection::read_more (lines 146-171): re-arms the liveness timer with the
configured timeout and starts an async read on the socket.  Only its visible
actions matter here. -/
def read_more : List Action := [Action.timerArm, Action.startRead]

/-- connection::SocketWrite (lines 173-190): marks a write as in progress,
stores the buffer in `write_buffer` and hands it to
`boost::asio::async_write`. -/
def SocketWrite (buf : Str) (s : ConnState) : ConnState × List Action :=
  ({ s with write_in_progress := true, write_buffer := buf },
   [Action.transportWrite buf])

/-- connection::MyWrite (lines 192-208): in http and websocket mode, appends
the buffer to `writeQ` when a write is in progress and otherwise starts the
write immediately via `SocketWrite`; in closing mode the switch has no case,
so nothing happens and the buffer is discarded. -/
def MyWrite (buf : Str) (s : ConnState) : ConnState × List Action :=
  match s.connection_type with
  | ConnType.connection_http | ConnType.connection_websocket =>
      if s.write_in_progress then
        ({ s with writeQ := s.writeQ ++ [buf] }, [])
      else
        SocketWrite buf s
  | ConnType.connection_closing => (s, [])

/-- connection::handle_write (lines 317-333): clears `write_in_progress`;
on success pops and writes the head of `writeQ` if the queue is non-empty,
and otherwise — when the connection is not keep-alive — shuts the socket down
and asks the connection manager to stop the connection.  On error nothing
else happens (the error is not inspected). -/
def handle_write (ec : ErrorCode) (s : ConnState) : ConnState × List Action :=
  let s0 := { s with write_in_progress := false }
  if ec = ErrorCode.success then
    match s0.writeQ with
    | b :: rest =>
        let w := SocketWrite b s0
        ({ w.1 with writeQ := rest }, w.2)
    | [] =>
        if s0.keepalive_ then (s0, [])
        else (s0, [Action.shutdown, Action.stopConnection])
  else (s0, [])

/-- Modelled from the spec: CWebsocketHandler::SendPing, the websocket
handler's liveness probe, is not among the core sources.  Per the spec, the
first timeout issues exactly one liveness probe (built by the codec and
enqueued through MyWrite) and records that a probe is outstanding; a second
consecutive timeout with the probe still outstanding — i.e. with no
intervening read activity, which is what clears the flag — escalates to
closing the connection (removal requested from the connection manager). -/
def SendPing (s : ConnState) : ConnState × List Action :=
  if s.ping_outstanding then
    (s, [Action.stopConnection])
  else
    MyWrite pingFrame { s with ping_outstanding := true }

/-- Modelled from the spec: CWebsocketHandler::SendClose is not among the core
sources; it builds a close-notification frame via the codec and enqueues it
through MyWrite. -/
def SendClose (s : ConnState) : ConnState × List Action :=
  MyWrite closeFrame s

/-- connection::stop (lines 101-113): in websocket mode first sends the close
notification (`SendClose`); in closing mode does nothing extra; in every mode
it then immediately closes the socket (`socket().close()`), without waiting
for the write queue to drain (the two "todo: wait for writeQ to flush"
comments in the source mark exactly this). -/
def stop (s : ConnState) : ConnState × List Action :=
  match s.connection_type with
  | ConnType.connection_websocket =>
      let c := SendClose s
      (c.1, c.2 ++ [Action.socketClose])
  | _ => (s, [Action.socketClose])

/-- connection::handle_timeout (lines 115-127): when the expiry was not
cancelled (`error != operation_aborted`), an http connection is stopped via
the connection manager and a websocket connection gets a liveness probe
(`SendPing`); a closing connection has no case in the switch, so nothing
happens. -/
def handle_timeout (ec : ErrorCode) (s : ConnState) : ConnState × List Action :=
  if ec ≠ ErrorCode.operationAborted then
    match s.connection_type with
    | ConnType.connection_http => (s, [Action.stopConnection])
    | ConnType.connection_websocket => SendPing s
    | ConnType.connection_closing => (s, [])
  else (s, [])

/-- The keep-alive flag computed from the parsed request (line 248):
`pConnection != NULL && boost::iequals(pConnection, "Keep-Alive")`. -/
def keepaliveOf (hp : HttpParse) : Bool :=
  match hp.connectionHeader with
  | some v => iequals v keepAliveValue
  | none => false

/-- The host attached to a dispatched request (lines 250-253): the peer
address, with a leading "::ffff:" stripped when `substr(0, 7)` equals that
prefix. -/
def stripHost (h : Str) : Str :=
  if h.take 7 = ipv4MappedPrefix then h.drop 7 else h

/-- The request connection.cpp dispatches to the request handler, at the
granularity the handler's outcome is consumed here: its host (lines 250-253)
and its keep-alive flag (line 249). -/
def parsedRequest (hp : HttpParse) (host_endpoint : Str) : RequestInfo :=
  { host := stripHost host_endpoint, keep_alive := keepaliveOf hp }

/-- connection::handle_read (lines 210-315).  The timer is cancelled first,
unconditionally.  On a successful read of at least one byte the read bytes are
committed to `_buf` and the current mode's parser outcome is consumed:

* http mode, complete parse: the consumed bytes are removed, the keep-alive
  flag is computed from the "Connection" header, the request (with normalized
  host) is dispatched to the request handler, the serialized reply is written
  through MyWrite, a `switching_protocols` reply switches the mode to
  websocket and forces keep-alive true, and a keep-alive connection starts
  another read;
* http mode, failed parse: keep-alive is forced false and the stock
  bad-request reply is written (the dead `if (keepalive_) read_more()` of the
  source is kept as-is);
* http mode, indeterminate parse: just read more;
* websocket/closing mode: the websocket parser runs (consuming bytes and
  updating the by-reference keep-alive flag); a complete packet either starts
  another read (keep-alive) or moves the connection to closing; otherwise
  more data is read.

A completion that is neither a successful read of data nor a cancellation
(`operation_aborted`) asks the connection manager to stop the connection.
Reading data counts as activity and clears the modelled websocket
liveness-probe flag (the source records activity in `m_lastresponse` at the
same place). -/
def handle_read (ec : ErrorCode) (bytes_transferred : Nat) (hp : HttpParse)
    (handler : RequestInfo → Reply) (ws : WsParse) (s : ConnState) :
    ConnState × List Action :=
  if ec = ErrorCode.success ∧ 0 < bytes_transferred then
    let s0 := { s with buf_ := s.buf_ + bytes_transferred,
                       ping_outstanding := false }
    match s0.connection_type with
    | ConnType.connection_http =>
      match hp.result with
      | Tribool.ttrue =>
          let s1 := { s0 with buf_ := s0.buf_ - hp.consumed }
          let req := parsedRequest hp s1.host_endpoint_
          let rep := handler req
          let s2 := { s1 with keepalive_ := req.keep_alive }
          let w := MyWrite rep.serialized s2
          let s3 :=
            if rep.status = status_type.switching_protocols then
              { w.1 with connection_type := ConnType.connection_websocket,
                         keepalive_ := true }
            else w.1
          let reads := if s3.keepalive_ then read_more else []
          (s3, Action.timerCancel :: Action.dispatch req :: (w.2 ++ reads))
      | Tribool.tfalse =>
          let s1 := { s0 with keepalive_ := false }
          let w := MyWrite bad_request_serialized s1
          let reads := if w.1.keepalive_ then read_more else []
          (w.1, Action.timerCancel :: (w.2 ++ reads))
      | Tribool.indeterminate =>
          (s0, Action.timerCancel :: read_more)
    | _ =>
      let s1 := { s0 with buf_ := s0.buf_ - ws.consumed,
                          keepalive_ := ws.keepalive_out }
      match ws.result with
      | Tribool.ttrue =>
          if s1.keepalive_ then (s1, Action.timerCancel :: read_more)
          else ({ s1 with connection_type := ConnType.connection_closing },
                [Action.timerCancel])
      | _ => (s1, Action.timerCancel :: read_more)
  else if ec ≠ ErrorCode.operationAborted then
    (s, [Action.timerCancel, Action.stopConnection])
  else
    (s, [Action.timerCancel])

/-- A freshly started plain http connection with the given peer address:
`keepalive_ = false`, `write_in_progress = false`, empty queue and buffer
(constructor, lines 25-42). -/
def freshConn (host : Str) : ConnState :=
  { connection_type := ConnType.connection_http
    keepalive_ := false
    write_in_progress := false
    writeQ := []
    write_buffer := []
    host_endpoint_ := host
    buf_ := 0
    ping_outstanding := false }

end Webserver

namespace Webserver

/-! ## Write-queue traces

To reason about arbitrary interleavings of write requests (`MyWrite` calls)
and write completions (`handle_write` calls) on one connection we run the two
functions over an explicit event list, while recording every buffer the code
hands to `boost::asio::async_write` and counting the completions processed. -/

/-- One event of a write trace: a `MyWrite` call made while the connection is
in mode `ct`, or a `handle_write` completion with error code `ec`. -/
inductive WEvent where
  | enq (ct : ConnType) (b : Str)
  | complete (ec : ErrorCode)
deriving DecidableEq, Repr

/-- The buffers an action list hands to the transport, in order. -/
def transportWrites : List Action → List Str
  | [] => []
  | Action.transportWrite b :: rest => b :: transportWrites rest
  | _ :: rest => transportWrites rest

/-- A running write trace: the connection state, every buffer handed to the
transport so far (in order), and the number of write completions processed. -/
structure WRun where
  st : ConnState
  started : List Str
  done : Nat
deriving DecidableEq, Repr

/-- Execute one trace event. -/
def wstep (r : WRun) : WEvent → WRun
  | WEvent.enq ct b =>
      let w := MyWrite b { r.st with connection_type := ct }
      { st := w.1, started := r.started ++ transportWrites w.2, done := r.done }
  | WEvent.complete ec =>
      let w := handle_write ec r.st
      { st := w.1, started := r.started ++ transportWrites w.2,
        done := r.done + 1 }

/-- Execute a list of trace events. -/
def wrunFrom (r : WRun) : List WEvent → WRun
  | [] => r
  | e :: es => wrunFrom (wstep r e) es

/-- A trace is valid when every completion event arrives while a write is in
flight (asio invokes `handle_write` exactly once per started write). -/
def validFrom (r : WRun) : List WEvent → Bool
  | [] => true
  | e :: es =>
      (match e with
       | WEvent.complete _ => r.st.write_in_progress
       | WEvent.enq _ _ => true) && validFrom (wstep r e) es

/-- The buffers one event enqueues: an enq in a non-closing mode enqueues its
buffer, an enq in closing mode is discarded, a completion enqueues nothing. -/
def acceptedOf : WEvent → List Str
  | WEvent.enq ct b => if ct = ConnType.connection_closing then [] else [b]
  | WEvent.complete _ => []

/-- All buffers a trace enqueues, in order. -/
def acceptedBufs : List WEvent → List Str
  | [] => []
  | e :: es => acceptedOf e ++ acceptedBufs es

/-- Whether every completion of a trace is successful. -/
def allSuccess : List WEvent → Bool
  | [] => true
  | WEvent.complete ec :: es => (ec = ErrorCode.success) && allSuccess es
  | WEvent.enq _ _ :: es => allSuccess es

/-- The initial trace over a connection state: nothing started, nothing
completed. -/
def initRun (s : ConnState) : WRun := { st := s, started := [], done := 0 }

/-- The number of writes in flight on the transport: started minus
completed. -/
def inFlight (r : WRun) : Nat := r.started.length - r.done

/-- The write-counting invariant: the number of buffers handed to the
transport equals the completions processed plus one exactly when a write is
in progress. -/
def WInv (r : WRun) : Prop :=
  r.started.length = r.done + (if r.st.write_in_progress = true then 1 else 0)

/-- When no write is in progress the pending queue is empty (holds as long as
completions are successful). -/
def QInv (r : WRun) : Prop :=
  r.st.write_in_progress = false → r.st.writeQ = []

/-- A parser outcome with the given result and "Connection" header, consuming
no bytes (consumed counts are irrelevant to the verified properties). -/
def hpOf (r : Tribool) (hdr : Option Str) : HttpParse :=
  { result := r, consumed := 0, connectionHeader := hdr }

/-- A websocket parser outcome that reports a complete packet and leaves
keep-alive false. -/
def wsNone : WsParse :=
  { result := Tribool.ttrue, consumed := 0, keepalive_out := false }

/-- A request handler that answers every request with the given status and
serialized body. -/
def handlerOf (st : status_type) (body : Str) : RequestInfo → Reply :=
  fun _ => { status := st, serialized := body }

/-- A connection that has been upgraded to websocket (FRAMED_PUSH) mode. -/
def wsConn : ConnState :=
  { freshConn [] with connection_type := ConnType.connection_websocket,
                      keepalive_ := true }

/-- A websocket connection with a write currently in flight. -/
def wsBusy : ConnState := { wsConn with write_in_progress := true }

/-- A write trace in which the middle completion fails: enqueue a and b,
complete the write of a with an error, enqueue c, then a successful
completion. -/
def c1trace : List WEvent :=
  [WEvent.enq ConnType.connection_http ['a'],
   WEvent.enq ConnType.connection_http ['b'],
   WEvent.complete ErrorCode.otherError,
   WEvent.enq ConnType.connection_http ['c'],
   WEvent.complete ErrorCode.success]

lemma wstep_WInv (r : WRun) (e : WEvent)
    (hv : ∀ ec, e = WEvent.complete ec → r.st.write_in_progress = true)
    (h : WInv r) : WInv (wstep r e) := by
  cases e with
  | enq ct b =>
      cases ct with
      | connection_closing =>
          simpa [wstep, MyWrite, transportWrites, WInv] using h
      | connection_http =>
          by_cases hw : r.st.write_in_progress = true <;>
            simp_all [wstep, MyWrite, SocketWrite, transportWrites, WInv]
      | connection_websocket =>
          by_cases hw : r.st.write_in_progress = true <;>
            simp_all [wstep, MyWrite, SocketWrite, transportWrites, WInv]
  | complete ec =>
      have hw := hv ec rfl
      rcases hq : r.st.writeQ with _ | ⟨b, rest⟩ <;>
        by_cases hec : ec = ErrorCode.success <;>
          by_cases hk : r.st.keepalive_ = true <;>
            simp_all [wstep, handle_write, SocketWrite, transportWrites, WInv]

lemma wrunFrom_WInv (es : List WEvent) (r : WRun)
    (hv : validFrom r es = true) (h : WInv r) : WInv (wrunFrom r es) := by
  induction es generalizing r with
  | nil => simpa [wrunFrom] using h
  | cons e es ih =>
      simp only [validFrom, Bool.and_eq_true] at hv
      refine ih (wstep r e) hv.2 (wstep_WInv r e ?_ h)
      intro ec hec
      subst hec
      simpa using hv.1

lemma validFrom_append (pre suf : List WEvent) (r : WRun) :
    validFrom r (pre ++ suf)
      = (validFrom r pre && validFrom (wrunFrom r pre) suf) := by
  induction pre generalizing r with
  | nil => simp [validFrom, wrunFrom]
  | cons e es ih =>
      simp [validFrom, wrunFrom, ih, Bool.and_assoc]

lemma allSuccess_append (pre suf : List WEvent) :
    allSuccess (pre ++ suf) = (allSuccess pre && allSuccess suf) := by
  induction pre with
  | nil => simp [allSuccess]
  | cons e es ih => cases e <;> simp [allSuccess, ih, Bool.and_assoc]

lemma wstep_fifo (r : WRun) (e : WEvent)
    (hv : ∀ ec, e = WEvent.complete ec → r.st.write_in_progress = true)
    (hok : allSuccess [e] = true) (hq : QInv r) :
    QInv (wstep r e) ∧
      (wstep r e).started ++ (wstep r e).st.writeQ
        = r.started ++ r.st.writeQ ++ acceptedOf e := by
  cases e with
  | enq ct b =>
      cases ct with
      | connection_closing =>
          simp_all [wstep, MyWrite, transportWrites, QInv, acceptedOf]
      | connection_http =>
          by_cases hw : r.st.write_in_progress = true <;>
            simp_all [wstep, MyWrite, SocketWrite, transportWrites, QInv,
              acceptedOf]
      | connection_websocket =>
          by_cases hw : r.st.write_in_progress = true <;>
            simp_all [wstep, MyWrite, SocketWrite, transportWrites, QInv,
              acceptedOf]
  | complete ec =>
      have hw := hv ec rfl
      have hec : ec = ErrorCode.success := by
        simpa [allSuccess] using hok
      subst hec
      rcases hqq : r.st.writeQ with _ | ⟨b, rest⟩ <;>
        by_cases hk : r.st.keepalive_ = true <;>
          simp_all [wstep, handle_write, SocketWrite, transportWrites, QInv,
            acceptedOf]

lemma wrunFrom_fifo (es : List WEvent) (r : WRun)
    (hv : validFrom r es = true) (hok : allSuccess es = true) (hq : QInv r) :
    QInv (wrunFrom r es) ∧
      (wrunFrom r es).started ++ (wrunFrom r es).st.writeQ
        = r.started ++ r.st.writeQ ++ acceptedBufs es := by
  induction es generalizing r with
  | nil => simp_all [wrunFrom, acceptedBufs]
  | cons e es ih =>
      simp only [validFrom, Bool.and_eq_true] at hv
      have hok1 : allSuccess [e] = true := by
        cases e <;> simp_all [allSuccess]
      have hoks : allSuccess es = true := by
        cases e <;> simp_all [allSuccess]
      have hstep := wstep_fifo r e (by intro ec hec; subst hec; simpa using hv.1)
        hok1 hq
      have hrest := ih (wstep r e) hv.2 hoks hstep.1
      refine ⟨hrest.1, ?_⟩
      rw [wrunFrom, hrest.2, hstep.2]
      simp [acceptedBufs]

/-- C1 (amended).  Starting from a connection with no write in flight and an
empty queue, for every valid sequence of write requests (MyWrite calls) and
write completions (handle_write calls): (1) at most one write is in flight on
the transport at every instant; (2) as long as every completion is successful,
at every instant the buffers handed to the transport followed by the pending
queue are exactly the buffers enqueued, in FIFO order; (3) a MyWrite issued
while a write is in flight appends the buffer to the pending queue and starts
no transport write; (4) a MyWrite issued while no write is in flight starts
the transport write immediately.  (The FIFO part needs the all-successful
restriction: after a failed completion the queue is left undrained and a
subsequent MyWrite bypasses it — see the counterexample.) -/
theorem C1_write_queue (s : ConnState) (es : List WEvent)
    (h0w : s.write_in_progress = false) (h0q : s.writeQ = [])
    (hv : validFrom (initRun s) es = true) :
    (∀ pre suf, es = pre ++ suf → inFlight (wrunFrom (initRun s) pre) ≤ 1)
  ∧ (allSuccess es = true → ∀ pre suf, es = pre ++ suf →
        (wrunFrom (initRun s) pre).started
            ++ (wrunFrom (initRun s) pre).st.writeQ
          = acceptedBufs pre)
  ∧ (∀ t b, t.connection_type ≠ ConnType.connection_closing →
        t.write_in_progress = true →
        MyWrite b t = ({ t with writeQ := t.writeQ ++ [b] }, []))
  ∧ (∀ t b, t.connection_type ≠ ConnType.connection_closing →
        t.write_in_progress = false →
        MyWrite b t
          = ({ t with write_in_progress := true, write_buffer := b },
             [Action.transportWrite b])) := by
  have hInv0 : WInv (initRun s) := by simp [WInv, initRun, h0w]
  refine ⟨?_, ?_, ?_, ?_⟩
  · intro pre suf hsplit
    subst hsplit
    rw [validFrom_append, Bool.and_eq_true] at hv
    have hI := wrunFrom_WInv pre (initRun s) hv.1 hInv0
    rw [WInv] at hI
    rw [inFlight, hI]
    split <;> omega
  · intro hall pre suf hsplit
    subst hsplit
    rw [validFrom_append, Bool.and_eq_true] at hv
    rw [allSuccess_append, Bool.and_eq_true] at hall
    have hq0 : QInv (initRun s) := fun _ => by simpa [initRun] using h0q
    have hF := wrunFrom_fifo pre (initRun s) hv.1 hall.1 hq0
    simpa [initRun, h0q] using hF.2
  · intro t b hct hw
    cases h : t.connection_type <;> simp_all [MyWrite]
  · intro t b hct hw
    cases h : t.connection_type <;> simp_all [MyWrite, SocketWrite]

/-- C1 witness: the invariant theorem applied at a fresh connection to a
concrete two-event trace (one write request, one successful completion). -/
theorem C1_write_queue_witness :
    inFlight (wrunFrom (initRun (freshConn []))
        [WEvent.enq ConnType.connection_http ['a']]) ≤ 1 :=
  (C1_write_queue (freshConn [])
      [WEvent.enq ConnType.connection_http ['a'],
       WEvent.complete ErrorCode.success]
      rfl rfl (by decide)).1
    [WEvent.enq ConnType.connection_http ['a']]
    [WEvent.complete ErrorCode.success] rfl

/-- C1 counterexample: on the valid trace `c1trace` — whose middle completion
reports an error — the buffers reach the transport in the order a, c, b while
they were enqueued in the order a, b, c, so the FIFO part of the claim as
stated (for every sequence of write requests and completions) is false. -/
theorem C1_write_queue_cex :
    validFrom (initRun (freshConn [])) c1trace = true
  ∧ acceptedBufs c1trace = [['a'], ['b'], ['c']]
  ∧ (wrunFrom (initRun (freshConn [])) c1trace).started = [['a'], ['c'], ['b']]
  ∧ (wrunFrom (initRun (freshConn [])) c1trace).st.writeQ = [] := by decide

/-- C2.  When the liveness timer expires with a non-cancelled expiry: an
http-mode connection is stopped (removal requested from the connection
manager); a websocket-mode connection with no probe outstanding gets exactly
one liveness probe (started immediately when no write is in flight, queued
otherwise) and is not stopped, while a second consecutive timeout — no
intervening read activity having cleared the probe flag — closes the
connection; and any successful read of data clears the probe flag, so an
expiry after activity probes again instead of closing.  (The websocket
handler's probe bookkeeping is modelled from the spec; see `SendPing`.) -/
theorem C2_handle_timeout (s : ConnState) (ec : ErrorCode)
    (hec : ec ≠ ErrorCode.operationAborted) :
    (s.connection_type = ConnType.connection_http →
        handle_timeout ec s = (s, [Action.stopConnection]))
  ∧ (s.connection_type = ConnType.connection_websocket →
      s.ping_outstanding = false →
        ((s.write_in_progress = false →
            handle_timeout ec s
              = ({ s with ping_outstanding := true, write_in_progress := true,
                          write_buffer := pingFrame },
                 [Action.transportWrite pingFrame]))
         ∧ (s.write_in_progress = true →
            handle_timeout ec s
              = ({ s with ping_outstanding := true,
                          writeQ := s.writeQ ++ [pingFrame] }, []))
         ∧ (handle_timeout ec (handle_timeout ec s).1).2
              = [Action.stopConnection]))
  ∧ (∀ t, t.connection_type = ConnType.connection_websocket →
        t.ping_outstanding = true →
        handle_timeout ec t = (t, [Action.stopConnection]))
  ∧ (∀ n hp handler ws t, 0 < n →
        (handle_read ErrorCode.success n hp handler ws t).1.ping_outstanding
          = false) := by
  refine ⟨?_, ?_, ?_, ?_⟩
  · intro hct
    simp [handle_timeout, hec, hct]
  · intro hct hping
    refine ⟨?_, ?_, ?_⟩
    · intro hw
      simp [handle_timeout, hec, hct, hping, SendPing, MyWrite, SocketWrite, hw]
    · intro hw
      simp [handle_timeout, hec, hct, hping, SendPing, MyWrite, hw]
    · by_cases hw : s.write_in_progress = true <;>
        simp [handle_timeout, hec, hct, hping, SendPing, MyWrite, SocketWrite,
          hw]
  · intro t hct hping
    simp [handle_timeout, hec, hct, SendPing, hping]
  · intro n hp handler ws t hn
    obtain ⟨ct, ka, wip, q, wb, he, bf, po⟩ := t
    obtain ⟨hr, hc, hh⟩ := hp
    obtain ⟨wr, wc, wk⟩ := ws
    cases ct <;> cases hr <;> cases wr <;> cases wip <;>
      simp [handle_read, MyWrite, SocketWrite, parsedRequest, read_more,
        hn] <;>
      try (split <;> simp)

/-- C2 witness: the timeout theorem applied at a concrete idle websocket
connection with a non-cancelled expiry: the second consecutive timeout closes
the connection. -/
theorem C2_handle_timeout_witness :
    (handle_timeout ErrorCode.success
        (handle_timeout ErrorCode.success wsConn).1).2
      = [Action.stopConnection] :=
  ((C2_handle_timeout wsConn ErrorCode.success (by decide)).2.1 rfl rfl).2.2

/-- C3 (amended).  A write completion that reports a failure is ignored by
handle_write: the write-in-progress flag is cleared and nothing else happens —
no queued buffer is drained, the connection does not transition to CLOSING,
and no shutdown or stop is requested; teardown only happens later, when some
other operation on the dead socket fails. -/
theorem C3_write_error_ignored (s : ConnState) (ec : ErrorCode)
    (hec : ec ≠ ErrorCode.success) :
    handle_write ec s = ({ s with write_in_progress := false }, []) := by
  simp [handle_write, hec]

/-- C3 witness: the amended theorem applied at a concrete websocket connection
whose in-flight write failed. -/
theorem C3_write_error_ignored_witness :
    handle_write ErrorCode.otherError wsBusy
      = ({ wsBusy with write_in_progress := false }, []) :=
  C3_write_error_ignored wsBusy ErrorCode.otherError (by decide)

/-- C3 counterexample: a websocket connection with a queued buffer whose
in-flight write completes with an error stays in websocket mode (it does not
transition to CLOSING) and no teardown action of any kind is emitted, so the
claim that the failure is surfaced for teardown is false. -/
theorem C3_write_error_cex :
    (handle_write ErrorCode.otherError
        { wsBusy with writeQ := [['x']] }).1.connection_type
      = ConnType.connection_websocket
  ∧ (handle_write ErrorCode.otherError
        { wsBusy with writeQ := [['x']] }).2 = []
  ∧ (handle_write ErrorCode.otherError
        { wsBusy with writeQ := [['x']] }).1.writeQ = [['x']] := by decide

/-- C4.  A completely parsed HTTP request whose handler reply has status 101
(`switching_protocols`) switches the connection's mode from http to websocket
(FRAMED_PUSH) and forces the keep-alive flag true — for every request,
including one without a Connection keep-alive header. -/
theorem C4_upgrade (s : ConnState) (n : Nat) (hp : HttpParse)
    (handler : RequestInfo → Reply) (ws : WsParse)
    (hct : s.connection_type = ConnType.connection_http) (hn : 0 < n)
    (hres : hp.result = Tribool.ttrue)
    (hst : (handler (parsedRequest hp s.host_endpoint_)).status
        = status_type.switching_protocols) :
    (handle_read ErrorCode.success n hp handler ws s).1.connection_type
        = ConnType.connection_websocket
  ∧ (handle_read ErrorCode.success n hp handler ws s).1.keepalive_ = true := by
  by_cases hw : s.write_in_progress = true <;>
    simp_all [handle_read, MyWrite, SocketWrite, parsedRequest, hn]

/-- C4 witness: the upgrade theorem applied at a fresh connection and a
request that carries no "Connection" header at all. -/
theorem C4_upgrade_witness :
    (handle_read ErrorCode.success 1 (hpOf Tribool.ttrue none)
        (handlerOf status_type.switching_protocols ['U']) wsNone
        (freshConn [])).1.connection_type = ConnType.connection_websocket
  ∧ (handle_read ErrorCode.success 1 (hpOf Tribool.ttrue none)
        (handlerOf status_type.switching_protocols ['U']) wsNone
        (freshConn [])).1.keepalive_ = true :=
  C4_upgrade (freshConn []) 1 (hpOf Tribool.ttrue none)
    (handlerOf status_type.switching_protocols ['U']) wsNone rfl (by decide)
    rfl rfl

/-- Case-insensitive comparison against "Keep-Alive" and against "keep-alive"
agree. -/
lemma iequals_keepAliveValue (v : Str) :
    iequals v keepAliveValue = iequals v ("keep-alive".toList) := by
  have h : keepAliveValue.map Char.toLower
      = ("keep-alive".toList).map Char.toLower := by decide
  simp [iequals, h]

/-- C5 (amended).  For every completely parsed HTTP request: the keep-alive
flag attached to the dispatched request (and, for a non-upgrade 200 reply, the
connection's keep-alive flag after the handler runs) is true exactly when the
request has a "Connection" header that case-insensitively equals
"keep-alive"; with that header and a 200 reply a second read is issued —
immediately, inside the same read-completion handler that enqueued the
response, not after the response's write completes — while without the header
no second read is issued; and the completion of the response's write on a
keep-alive connection with an empty queue performs no action at all (in
particular it issues no read). -/
theorem C5_keepalive (s : ConnState) (n : Nat) (hp : HttpParse)
    (handler : RequestInfo → Reply) (ws : WsParse)
    (hct : s.connection_type = ConnType.connection_http) (hn : 0 < n)
    (hres : hp.result = Tribool.ttrue)
    (hok : (handler (parsedRequest hp s.host_endpoint_)).status
        = status_type.ok) :
    ((parsedRequest hp s.host_endpoint_).keep_alive = true ↔
        ∃ v, hp.connectionHeader = some v
          ∧ iequals v ("keep-alive".toList) = true)
  ∧ (handle_read ErrorCode.success n hp handler ws s).1.keepalive_
      = (parsedRequest hp s.host_endpoint_).keep_alive
  ∧ (Action.startRead ∈ (handle_read ErrorCode.success n hp handler ws s).2 ↔
        (parsedRequest hp s.host_endpoint_).keep_alive = true)
  ∧ (∀ t, t.keepalive_ = true → t.writeQ = [] →
        handle_write ErrorCode.success t
          = ({ t with write_in_progress := false }, [])) := by
  refine ⟨?_, ?_, ?_, ?_⟩
  · cases hh : hp.connectionHeader with
    | none => simp [parsedRequest, keepaliveOf, hh]
    | some v => simp [parsedRequest, keepaliveOf, hh, iequals_keepAliveValue v]
  · by_cases hw : s.write_in_progress = true <;>
      by_cases hk : keepaliveOf hp = true <;>
        simp_all [handle_read, MyWrite, SocketWrite, parsedRequest, read_more,
          hn]
  · by_cases hw : s.write_in_progress = true <;>
      by_cases hk : keepaliveOf hp = true <;>
        simp_all [handle_read, MyWrite, SocketWrite, parsedRequest, read_more,
          hn]
  · intro t ht hq
    simp [handle_write, ht, hq]

/-- C5 witness: the keep-alive theorem applied at a fresh connection with a
"Connection: keep-alive" request and a 200 reply. -/
theorem C5_keepalive_witness :
    Action.startRead ∈ (handle_read ErrorCode.success 1
        (hpOf Tribool.ttrue (some ("keep-alive".toList)))
        (handlerOf status_type.ok ['R']) wsNone (freshConn [])).2 ↔
      (parsedRequest (hpOf Tribool.ttrue (some ("keep-alive".toList)))
          (freshConn []).host_endpoint_).keep_alive = true :=
  (C5_keepalive (freshConn []) 1
      (hpOf Tribool.ttrue (some ("keep-alive".toList)))
      (handlerOf status_type.ok ['R']) wsNone rfl (by decide) rfl rfl).2.2.1

/-- C5 counterexample: for a keep-alive request with a 200 reply, the second
read (`startRead`) is issued inside handle_read itself, in the same handler
invocation that merely started the response's write (`transportWrite`) — i.e.
while that write is still in flight — and the write's completion afterwards
issues nothing; so the claim that the second read is issued after the first
response is fully written is false. -/
theorem C5_keepalive_cex :
    (handle_read ErrorCode.success 1
        (hpOf Tribool.ttrue (some ("keep-alive".toList)))
        (handlerOf status_type.ok ['R']) wsNone (freshConn [])).2
      = [Action.timerCancel,
         Action.dispatch { host := [], keep_alive := true },
         Action.transportWrite ['R'], Action.timerArm, Action.startRead]
  ∧ (handle_write ErrorCode.success
        (handle_read ErrorCode.success 1
          (hpOf Tribool.ttrue (some ("keep-alive".toList)))
          (handlerOf status_type.ok ['R']) wsNone (freshConn [])).1).2
      = [] := by decide

/-- C6.  A read whose accumulated buffer the HTTP parser rejects as malformed
(on a connection with no write in flight) enqueues exactly one synthesized
bad-request response, forces the keep-alive flag false, issues no further
read, and once that response's write completes the socket is shut down and
the connection's stop is requested. -/
theorem C6_bad_request (s : ConnState) (n : Nat) (hp : HttpParse)
    (handler : RequestInfo → Reply) (ws : WsParse)
    (hct : s.connection_type = ConnType.connection_http) (hn : 0 < n)
    (hres : hp.result = Tribool.tfalse)
    (hw : s.write_in_progress = false) (hq : s.writeQ = []) :
    (handle_read ErrorCode.success n hp handler ws s).1.keepalive_ = false
  ∧ (handle_read ErrorCode.success n hp handler ws s).2
      = [Action.timerCancel, Action.transportWrite bad_request_serialized]
  ∧ (handle_write ErrorCode.success
        (handle_read ErrorCode.success n hp handler ws s).1).2
      = [Action.shutdown, Action.stopConnection] := by
  simp [handle_read, handle_write, MyWrite, SocketWrite, hct, hres, hn, hw,
    hq]

/-- C6 witness: the bad-request theorem applied at a fresh connection with a
malformed request. -/
theorem C6_bad_request_witness :
    (handle_read ErrorCode.success 1 (hpOf Tribool.tfalse none)
        (handlerOf status_type.ok ['R']) wsNone (freshConn [])).1.keepalive_
      = false
  ∧ (handle_read ErrorCode.success 1 (hpOf Tribool.tfalse none)
        (handlerOf status_type.ok ['R']) wsNone (freshConn [])).2
      = [Action.timerCancel, Action.transportWrite bad_request_serialized]
  ∧ (handle_write ErrorCode.success
        (handle_read ErrorCode.success 1 (hpOf Tribool.tfalse none)
          (handlerOf status_type.ok ['R']) wsNone (freshConn [])).1).2
      = [Action.shutdown, Action.stopConnection] :=
  C6_bad_request (freshConn []) 1 (hpOf Tribool.tfalse none)
    (handlerOf status_type.ok ['R']) wsNone rfl (by decide) rfl rfl rfl

/-- C7 (code bug).  Stopping a websocket connection enqueues the close
notification frame but then closes the socket immediately, without waiting
for any in-flight write to complete (and with no grace period): with a write
in flight the close frame is still sitting in the queue and the write still
in flight when `socketClose` happens, and with no write in flight the close
frame's own write has only been started, not completed, when `socketClose`
happens.  The source marks the missing wait itself: "todo: send close frame
and wait for writeQ to flush" / "todo: wait for writeQ to flush". -/
theorem C7_stop_websocket_no_drain :
    stop wsBusy
      = ({ wsBusy with writeQ := [closeFrame] }, [Action.socketClose])
  ∧ stop wsConn
      = ({ wsConn with write_in_progress := true, write_buffer := closeFrame },
         [Action.transportWrite closeFrame, Action.socketClose]) := by decide

/-- Stripping the IPv4-mapped prefix from an address that carries it yields
the rest of the address. -/
lemma stripHost_append (r : Str) : stripHost (ipv4MappedPrefix ++ r) = r := by
  have hlen : ipv4MappedPrefix.length = 7 := by decide
  rw [stripHost, if_pos (List.take_left' hlen), List.drop_left' hlen]

/-- Stripping leaves an address without the IPv4-mapped prefix unchanged. -/
lemma stripHost_of_not_mapped (h : Str)
    (hno : ¬ ∃ r, h = ipv4MappedPrefix ++ r) : stripHost h = h := by
  rw [stripHost, if_neg]
  intro h7
  exact hno ⟨h.drop 7, by rw [← h7]; exact (List.take_append_drop 7 h).symm⟩

/-- C8.  On every completely parsed HTTP request the request dispatched to the
handler carries as host the peer address with a leading "::ffff:" prefix
stripped when present, and the peer address unchanged when the prefix is
absent. -/
theorem C8_host_strip (s : ConnState) (n : Nat) (hp : HttpParse)
    (handler : RequestInfo → Reply) (ws : WsParse)
    (hct : s.connection_type = ConnType.connection_http) (hn : 0 < n)
    (hres : hp.result = Tribool.ttrue) :
    Action.dispatch (parsedRequest hp s.host_endpoint_)
        ∈ (handle_read ErrorCode.success n hp handler ws s).2
  ∧ (∀ r, s.host_endpoint_ = ipv4MappedPrefix ++ r →
        (parsedRequest hp s.host_endpoint_).host = r)
  ∧ ((¬ ∃ r, s.host_endpoint_ = ipv4MappedPrefix ++ r) →
        (parsedRequest hp s.host_endpoint_).host = s.host_endpoint_) := by
  refine ⟨?_, ?_, ?_⟩
  · simp [handle_read, hct, hres, hn]
  · intro r hr
    show stripHost s.host_endpoint_ = r
    rw [hr, stripHost_append]
  · intro hno
    show stripHost s.host_endpoint_ = s.host_endpoint_
    exact stripHost_of_not_mapped _ hno

/-- C8 witness: the host-normalization theorem applied at the peer address
"::ffff:10.0.0.5", which normalizes to "10.0.0.5". -/
theorem C8_host_strip_witness :
    (parsedRequest (hpOf Tribool.ttrue none)
        (freshConn ("::ffff:10.0.0.5".toList)).host_endpoint_).host
      = "10.0.0.5".toList :=
  (C8_host_strip (freshConn ("::ffff:10.0.0.5".toList)) 1
      (hpOf Tribool.ttrue none) (handlerOf status_type.ok ['R']) wsNone rfl
      (by decide) rfl).2.1 ("10.0.0.5".toList) (by decide)

/-- C9.  On a connection in closing mode MyWrite is a no-op: the buffer is
discarded and the state — queue, write-in-progress flag and all — is returned
unchanged, with no transport action. -/
theorem C9_closing_MyWrite (s : ConnState) (b : Str)
    (h : s.connection_type = ConnType.connection_closing) :
    MyWrite b s = (s, []) := by
  simp [MyWrite, h]

/-- C9 witness: the no-op theorem applied at a concrete closing
connection. -/
theorem C9_closing_MyWrite_witness :
    MyWrite ['x']
        { freshConn [] with connection_type := ConnType.connection_closing }
      = ({ freshConn [] with connection_type := ConnType.connection_closing },
         []) :=
  C9_closing_MyWrite
    { freshConn [] with connection_type := ConnType.connection_closing }
    ['x'] rfl

/-- C10 (amended).  A read completion reporting success with zero bytes
transferred cancels the liveness timer, leaves the connection state (buffer
included) unchanged and issues no new read — but it does request the
connection's stop from the connection manager, because the zero-byte success
fails the bytes-read guard and the success error code differs from
operation_aborted, so the completion falls into the error branch. -/
theorem C10_zero_byte_read (s : ConnState) (hp : HttpParse)
    (handler : RequestInfo → Reply) (ws : WsParse) :
    handle_read ErrorCode.success 0 hp handler ws s
      = (s, [Action.timerCancel, Action.stopConnection]) := by
  simp [handle_read]

/-- C10 counterexample: on a concrete fresh connection a successful zero-byte
read completion does request the connection's stop, so the claim that the
connection is not stopped is false. -/
theorem C10_zero_byte_read_cex :
    Action.stopConnection ∈ (handle_read ErrorCode.success 0
        (hpOf Tribool.ttrue none) (handlerOf status_type.ok ['R']) wsNone
        (freshConn [])).2 := by decide

end Webserver
